import Mathlib

/-!
Verification development for the Mini-docker-kubernetes repository
(master/worker control plane). The definitions below are a shallow
embedding of the Python sources in src/: the worker request loop and
process supervisor from src/worker/worker.py, and the master command
loop and outbound call from src/master/master.py. Components that the
design document describes but that are absent from the sources (the
round-robin scheduler and the container registry) are modelled from the
spec and marked as such in their doc comments.
-/

namespace MiniDocker

/-! ## Worker-side model (src/worker/worker.py) -/

/-- Side effects a worker-side activity can perform, as observable
channels: console printing, appending a line to the worker log file,
sending bytes on the protocol connection, or writing to a registry.
The live worker code only uses the first three; the registry channel
exists so that "never writes to the registry" is a statement about a
genuinely larger effect type. -/
inductive Effect where
  | console : String → Effect
  | logWrite : String → Effect
  | protocolSend : String → Effect
  | registryWrite : String → Effect
deriving DecidableEq, Repr

/-- Observation of the launched process at one monitor iteration:
either psutil reports it running with given cpu percent and memory (in
whole MB, abstracting the float), or is_running returns False (loop
exits silently), or psutil raises NoSuchProcess (except branch). -/
inductive ProcObs where
  | runningObs : Nat → Nat → ProcObs
  | exitedObs : ProcObs
  | vanishedObs : ProcObs
deriving DecidableEq, Repr

/-- True on the observation in which the while-loop guard
p.is_running() holds. -/
def ProcObs.isRunningObs : ProcObs → Bool
  | ProcObs.runningObs _ _ => true
  | _ => false

/-- Console line printed by one monitor iteration, from
worker.py line 105. -/
def monitorLine (cid : String) (pid cpu mem : Nat) : String :=
  "[Monitor] Container=" ++ cid ++ " PID=" ++ toString pid ++
    " CPU=" ++ toString cpu ++ "% MEM=" ++ toString mem ++ "MB"

/-- Console line printed when psutil raises NoSuchProcess, from
worker.py line 108. -/
def endedLine (cid : String) : String :=
  "[Monitor] Container " ++ cid ++ " ended."

/-- Shallow embedding of monitor_process (worker.py lines 99-108).
The process is abstracted as a stream of observations, one per loop
iteration (each iteration is one fixed-cadence sampling step:
cpu_percent with interval 1 plus sleep 2). While the observation says
running, the loop samples cpu and memory and prints one console line;
when is_running is False the loop exits printing nothing; when psutil
raises NoSuchProcess the handler prints the ended line and stops. The
fuel argument bounds the number of iterations modelled, since the
Python loop would run forever for a process that never exits. -/
def monitor_process (cid : String) (pid : Nat) (obs : Nat → ProcObs) :
    Nat → Nat → List Effect
  | 0, _ => []
  | Nat.succ fuel, t =>
    match obs t with
    | ProcObs.runningObs cpu mem =>
        Effect.console (monitorLine cid pid cpu mem) ::
          monitor_process cid pid obs fuel (t + 1)
    | ProcObs.exitedObs => []
    | ProcObs.vanishedObs => [Effect.console (endedLine cid)]

/-- Response object built by handle_run (worker.py line 116). The pid
and started_at fields are optional so that presence of a field is
statable; the source always populates both. -/
structure RunResponse where
  status : String
  pid : Option Nat
  started_at : Option String
deriving DecidableEq, Repr

/-- Outcome of the subprocess.Popen call at worker.py line 111: either
the process-start facility returns a process with a pid, or it raises
an exception (OSError and the like). -/
inductive LaunchOutcome where
  | launched : Nat → LaunchOutcome
  | launchRaise : LaunchOutcome
deriving DecidableEq, Repr

/-- Log line written by handle_run (worker.py line 114) via log. -/
def containerStartLog (cid : String) (pid : Nat) (cmd : String) : String :=
  "container_start cid=" ++ cid ++ " pid=" ++ toString pid ++ " command=" ++ cmd

/-- Shallow embedding of handle_run (worker.py lines 110-116). Popen
is abstracted by the LaunchOutcome argument, the wall clock by now,
and the launched process's future behaviour by obs together with the
monitor fuel. If Popen returns, handle_run logs container_start,
starts the monitor thread, and returns the started response built from
the pid and the current time only; if Popen raises, the exception
propagates (there is no try/except in the source), modelled as none. -/
def handle_run (cid cmd : String) (launch : LaunchOutcome) (now : String)
    (obs : Nat → ProcObs) (fuel : Nat) : Option (RunResponse × List Effect) :=
  match launch with
  | LaunchOutcome.launched pid =>
      some (RunResponse.mk "started" (some pid) (some now),
        Effect.logWrite (containerStartLog cid pid cmd) ::
          monitor_process cid pid obs fuel 0)
  | LaunchOutcome.launchRaise => none

/-- Request object read by the worker loop (worker.py line 125). The
source accesses the JSON keys "type", "container_id" and "command";
the field reqType stands for the key "type", which is a reserved word
in Lean. -/
structure Request where
  reqType : String
  container_id : String
  command : String
deriving DecidableEq, Repr

/-- Result of json.loads on the received bytes: either a value with
the three expected keys, or anything else (invalid JSON, or a JSON
value on which the key lookups raise), which makes the loop body
raise. -/
inductive ReqParse where
  | parsed : Request → ReqParse
  | malformed : ReqParse

/-- What happens to one accepted connection in the worker loop:
exactly one response is sent and the connection closed; or the
connection is closed without any response having been sent; or an
uncaught exception propagates out of the loop body, so nothing is sent
and the worker process terminates. -/
inductive ConnOutcome where
  | responded : RunResponse → ConnOutcome
  | closedSilently : ConnOutcome
  | crashed : ConnOutcome
deriving DecidableEq, Repr

/-- Shallow embedding of one iteration of the start_worker accept loop
(worker.py lines 123-129). The loop reads one request; a malformed
request makes json.loads or the key lookup raise, which is uncaught.
A request whose type field is "run_container" is dispatched to
handle_run and its result sent back as the single response; if
handle_run raises (launch failure) the exception is likewise uncaught.
Any other parsed request type matches no branch, and the connection is
closed without a response. -/
def worker_conn_step (p : ReqParse) (launch : LaunchOutcome) (now : String)
    (obs : Nat → ProcObs) (fuel : Nat) : ConnOutcome :=
  match p with
  | ReqParse.malformed => ConnOutcome.crashed
  | ReqParse.parsed req =>
      if req.reqType = "run_container" then
        match handle_run req.container_id req.command launch now obs fuel with
        | some rr => ConnOutcome.responded rr.1
        | none => ConnOutcome.crashed
      else ConnOutcome.closedSilently

/-- Inputs determining the fate of one accepted connection. -/
structure ConnInput where
  parse : ReqParse
  launch : LaunchOutcome
  now : String
  obs : Nat → ProcObs
  fuel : Nat

/-- Shallow embedding of the sequential accept loop of start_worker
(worker.py lines 123-129) over a finite schedule of connections: each
connection is fully processed before the next is accepted, and an
uncaught exception ends the loop, so no later connection is served. -/
def worker_loop : List ConnInput → List ConnOutcome
  | [] => []
  | c :: rest =>
    match worker_conn_step c.parse c.launch c.now c.obs c.fuel with
    | ConnOutcome.crashed => [ConnOutcome.crashed]
    | o => o :: worker_loop rest

/-! ## Master-side outbound call (src/master/master.py, send_command) -/

/-- Result of the single network attempt made by send_command: the
socket round trip succeeds and recv yields the decoded data, or
socket.timeout is raised, or ConnectionRefusedError is raised, or some
other exception with message e is raised. -/
inductive NetResult where
  | success : String → NetResult
  | timeoutErr : NetResult
  | refusedErr : NetResult
  | otherErr : String → NetResult
deriving DecidableEq, Repr

/-- Shallow embedding of send_command (master.py lines 158-207). The
network is abstracted as a stream of per-attempt results; the source
performs exactly one connect/send/recv attempt, so only attempt 0 is
ever consulted. Every exception class is caught and rendered as an
Error message string; on success the decoded data is returned. -/
def send_command (_node_ip _command : String) (net : Nat → NetResult) : String :=
  match net 0 with
  | NetResult.success d => d
  | NetResult.timeoutErr => "Error: Connection timeout"
  | NetResult.refusedErr => "Error: Connection refused - is the node running?"
  | NetResult.otherErr e => "Error: " ++ e

/-! ## Master-side command loop (src/master/master.py, main block) -/

/-- Result of running one command handler in the main loop: either it
returns normally having printed some lines, or it raises an exception
whose message is the given string. -/
inductive CmdResult where
  | output : List String → CmdResult
  | raised : String → CmdResult

/-- Fate of one iteration of the master's interactive loop: print the
given lines and go round again, or print them and break out of the
loop. There is no constructor for an uncaught crash, because the
source wraps the whole iteration in try/except Exception. -/
inductive LoopStep where
  | continueLoop : List String → LoopStep
  | exitLoop : List String → LoopStep
deriving Repr

/-- Conversion of a handler result to a loop step, embedding the
except-Exception arm of the main loop (master.py lines 466-468): a
raised exception is printed as an Error message and the loop
continues. -/
def catchResult : CmdResult → LoopStep
  | CmdResult.output outs => LoopStep.continueLoop outs
  | CmdResult.raised e => LoopStep.continueLoop [("Error: " ++ e)]

/-- Shallow embedding of handle_run_command (master.py lines 345-375).
It returns the printed lines together with the number of times it
invokes the scheduler's schedule operation: the source only prints a
simulated-start message (the real dispatch is a comment), so that
count is zero on every path. -/
def handle_run_command (args : List String) : List String × Nat :=
  if args.length < 2 then (["Usage: run <image_name> [options]"], 0)
  else
    match args with
    | _ :: image_name :: _ =>
        (("Starting container with image: " ++ image_name) ::
          ["Simulated: Container started successfully"], 0)
    | _ => ([], 0)

/-- Lowercasing as used by the source's args[0].lower(), embedded as a
structural map over the string's character list so that it evaluates
on concrete command words. -/
def strLower (s : String) : String :=
  String.mk (s.data.map Char.toLower)

/-- Shallow embedding of the dispatch inside the master's main loop
(master.py lines 417-468), after input, strip and split: args is the
whitespace-split command line. The list and stop handlers are
abstracted as parameters, run is the concrete handle_run_command, and
any handler exception is caught by catchResult. Exit and quit break
the loop; an empty line is skipped; anything else prints the unknown
command message. -/
def master_dispatch (hList hStop : List String → CmdResult)
    (hRunExn : Option String) (args : List String) : LoopStep :=
  match args with
  | [] => LoopStep.continueLoop []
  | c :: _ =>
    let command := strLower c
    if command = "exit" ∨ command = "quit" then
      LoopStep.exitLoop ["Goodbye!"]
    else if command = "help" then
      LoopStep.continueLoop
        ["Available commands: list, run, stop, help, exit"]
    else if command = "list" then catchResult (hList args)
    else if command = "run" then
      catchResult
        (match hRunExn with
         | some e => CmdResult.raised e
         | none => CmdResult.output (handle_run_command args).1)
    else if command = "stop" then catchResult (hStop args)
    else
      LoopStep.continueLoop
        ["Unknown command. Type help for available commands."]

/-! ## Scheduler and registry, modelled from the spec

The design document describes a round-robin Scheduler and a Container
Registry that do not appear anywhere under src/ (the master's run
handler is explicitly simulated). The definitions in this section are
therefore modelled from the spec, not from source code. -/

/-- Modelled from the spec: the address (host, port) of one worker in
the master's fixed ordered worker list (spec section 6). -/
structure WorkerAddr where
  host : String
  port : Nat
deriving DecidableEq, Repr

/-- Modelled from the spec: the state sub-structure of a
ContainerRecord (spec section 3). -/
structure ContState where
  status : String
  started_at : Option String
  finished_at : Option String
  exit_code : Option Int
  error : Option String
deriving DecidableEq, Repr

/-- Modelled from the spec: one ContainerRecord (spec section 3).
processDetails holds the reported pid once present; resourceConfig is
advisory metadata the core never interprets. -/
structure ContainerRecord where
  id : Nat
  name : String
  command : String
  assignedWorker : WorkerAddr
  createdAt : Nat
  state : ContState
  processDetails : Option Nat
  resourceConfig : Option String
deriving DecidableEq, Repr

/-- Modelled from the spec: registry append (spec section 4.1), which
is load-add-save on the whole persisted set; persistence is abstracted
to the in-memory list of records. -/
def registryAppend (recs : List ContainerRecord) (r : ContainerRecord) :
    List ContainerRecord :=
  recs ++ [r]

/-- Modelled from the spec: the partial top-level fields an updateByID
call may carry, restricted to the two fields the scheduler updates.
A present field fully replaces the corresponding record field
(shallow top-level merge, spec section 4.1). -/
structure RecordUpdate where
  state : Option ContState
  processDetails : Option (Option Nat)

/-- Modelled from the spec: application of a shallow top-level merge
to one record (spec section 4.1): each present field of the update
replaces the record's field wholesale. -/
def applyUpdate (u : RecordUpdate) (r : ContainerRecord) : ContainerRecord :=
  ContainerRecord.mk r.id r.name r.command r.assignedWorker r.createdAt
    (match u.state with
     | some s => s
     | none => r.state)
    (match u.processDetails with
     | some p => p
     | none => r.processDetails)
    r.resourceConfig

/-- Modelled from the spec: updateByID (spec section 4.1): merge the
given fields into the record with matching id at the top level; no-op
silently when no record matches. -/
def updateByID (recs : List ContainerRecord) (i : Nat) (u : RecordUpdate) :
    List ContainerRecord :=
  recs.map (fun r => if r.id = i then applyUpdate u r else r)

/-- Modelled from the spec: the Scheduler's process-wide state (spec
sections 4.2 and 9): the fixed ordered worker list and the round-robin
cursor, initialized to zero at startup. -/
structure Scheduler where
  workers : List WorkerAddr
  cursor : Nat
deriving Repr

/-- Modelled from the spec: step 1 of the schedule algorithm (spec
section 4.2): read the worker at the cursor position, then advance the
cursor by one modulo the list length. -/
def selectWorker (s : Scheduler) : WorkerAddr × Scheduler :=
  (s.workers.getD (s.cursor % s.workers.length) (WorkerAddr.mk "" 0),
   Scheduler.mk s.workers ((s.cursor + 1) % s.workers.length))

/-- Modelled from the spec: the master-side state a schedule call
touches: the scheduler, the registry, the id generator and a clock for
timestamps (spec sections 4.2 and 5). -/
structure MasterState where
  sched : Scheduler
  registry : List ContainerRecord
  nextId : Nat
  clock : Nat
deriving Repr

/-- Modelled from the spec: the observed outcome of the requestRun
protocol call (spec section 4.2): a reply signalling success with a
pid and a started_at timestamp, or any failure (transport error,
malformed reply, or explicit failure status). -/
inductive RunOutcome where
  | started : Nat → String → RunOutcome
  | failed : RunOutcome
deriving DecidableEq, Repr

/-- Modelled from the spec: schedule (spec section 4.2): select the
next worker round-robin, append an initial assigned record, invoke
requestRun (whose outcome is the argument), then update the record to
running with pid and started_at on success, or to error status on any
failure. Returns the created record in its terminal-for-now status
together with the new master state. -/
def schedule (st : MasterState) (cmdText : String) (outcome : RunOutcome) :
    ContainerRecord × MasterState :=
  let sel := selectWorker st.sched
  let rec0 := ContainerRecord.mk st.nextId
    ("container-" ++ toString st.nextId) cmdText sel.1 st.clock
    (ContState.mk "assigned" none none none none) none none
  let reg1 := registryAppend st.registry rec0
  let upd := match outcome with
    | RunOutcome.started pid ts =>
        RecordUpdate.mk (some (ContState.mk "running" (some ts) none none none))
          (some (some pid))
    | RunOutcome.failed =>
        RecordUpdate.mk (some (ContState.mk "error" none none none none)) none
  let reg2 := updateByID reg1 st.nextId upd
  (applyUpdate upd rec0,
   MasterState.mk sel.2 reg2 (st.nextId + 1) (st.clock + 1))

/-- Modelled from the spec: a sequence of schedule calls, each with
its command text and the outcome its requestRun call happens to have;
returns the list of workers the successive calls were assigned to. -/
def runSchedules (st : MasterState) : List (String × RunOutcome) → List WorkerAddr
  | [] => []
  | c :: rest =>
    let r := schedule st c.1 c.2
    r.1.assignedWorker :: runSchedules r.2 rest

/-! ## Theorems -/

/-- C1: every response message the worker sends has a status field equal
to "started" or "error"; the pid field is present if and only if status
is "started", and the started_at field is present if and only if status
is "started". In the source the only response ever sent is built at
worker.py line 116, with status "started" and both fields populated. -/
theorem worker_response_shape (p : ReqParse) (launch : LaunchOutcome)
    (now : String) (obs : Nat → ProcObs) (fuel : Nat) (r : RunResponse)
    (h : worker_conn_step p launch now obs fuel = ConnOutcome.responded r) :
    (r.status = "started" ∨ r.status = "error") ∧
      (r.pid.isSome ↔ r.status = "started") ∧
      (r.started_at.isSome ↔ r.status = "started") := by
  cases p with
  | malformed => simp [worker_conn_step] at h
  | parsed req =>
    by_cases ht : req.reqType = "run_container"
    · cases launch with
      | launched pid =>
        simp [worker_conn_step, handle_run, ht] at h
        rw [← h]
        simp
      | launchRaise => simp [worker_conn_step, handle_run, ht] at h
    · simp [worker_conn_step, ht] at h

/-- Witness for worker_response_shape at a concrete connection: a
parsed run_container request whose launch yields pid 42 at time "T". -/
theorem worker_response_shape_witness :
    ((RunResponse.mk "started" (some 42) (some "T")).status = "started" ∨
      (RunResponse.mk "started" (some 42) (some "T")).status = "error") ∧
      ((RunResponse.mk "started" (some 42) (some "T")).pid.isSome ↔
        (RunResponse.mk "started" (some 42) (some "T")).status = "started") ∧
      ((RunResponse.mk "started" (some 42) (some "T")).started_at.isSome ↔
        (RunResponse.mk "started" (some 42) (some "T")).status = "started") :=
  worker_response_shape
    (ReqParse.parsed (Request.mk "run_container" "c1" "sleep 1"))
    (LaunchOutcome.launched 42) "T" (fun _ => ProcObs.exitedObs) 0
    (RunResponse.mk "started" (some 42) (some "T")) rfl

/-- C2: evaluation of the worker loop body at a run_container request
whose Popen call raises. The exception is uncaught: the connection is
dropped with no response written (and the worker process terminates),
contradicting the claim that an error response is written. -/
theorem run_launch_failure_crashes :
    worker_conn_step
      (ReqParse.parsed (Request.mk "run_container" "c1" "nosuchcmd"))
      LaunchOutcome.launchRaise "T" (fun _ => ProcObs.exitedObs) 0 =
      ConnOutcome.crashed := rfl

/-- C3 counterexample: a connection carrying a parseable request whose
type field is "ping" is closed without any response being written, so
the worker does not write exactly one response on every accepted
connection. -/
theorem worker_ping_no_response_cex :
    worker_conn_step (ReqParse.parsed (Request.mk "ping" "c1" "x"))
      (LaunchOutcome.launched 1) "T" (fun _ => ProcObs.exitedObs) 0 =
      ConnOutcome.closedSilently := by
  simp [worker_conn_step]

/-- C3 amended: for every connection whose request parses with type
"run_container" and whose launch succeeds, the worker writes exactly
one response (the started response) and closes the connection; a
parseable request of any other type is closed without a response; and
the accept loop is sequential: a fully handled connection is answered
before any later connection is processed. -/
theorem worker_conn_amended (req : Request) (pid fuel : Nat) (now : String)
    (obs : Nat → ProcObs) (l : LaunchOutcome) (c : ConnInput)
    (cs : List ConnInput) :
    (req.reqType = "run_container" →
      worker_conn_step (ReqParse.parsed req) (LaunchOutcome.launched pid)
        now obs fuel =
        ConnOutcome.responded (RunResponse.mk "started" (some pid) (some now))) ∧
      (req.reqType ≠ "run_container" →
        worker_conn_step (ReqParse.parsed req) l now obs fuel =
          ConnOutcome.closedSilently) ∧
      (∀ r, worker_conn_step c.parse c.launch c.now c.obs c.fuel =
          ConnOutcome.responded r →
        worker_loop (c :: cs) = ConnOutcome.responded r :: worker_loop cs) := by
  refine ⟨?_, ?_, ?_⟩
  · intro ht
    simp [worker_conn_step, handle_run, ht]
  · intro ht
    simp [worker_conn_step, ht]
  · intro r hr
    simp [worker_loop, hr]

/-- Witness for worker_conn_amended, applying it to a run_container
request, to a request of type "status", and to the loop with a
responding head connection. -/
theorem worker_conn_amended_witness :
    worker_conn_step (ReqParse.parsed (Request.mk "run_container" "c2" "ls"))
        (LaunchOutcome.launched 7) "T2" (fun _ => ProcObs.exitedObs) 1 =
        ConnOutcome.responded (RunResponse.mk "started" (some 7) (some "T2")) ∧
      worker_conn_step (ReqParse.parsed (Request.mk "status" "c2" "ls"))
        (LaunchOutcome.launched 7) "T2" (fun _ => ProcObs.exitedObs) 1 =
        ConnOutcome.closedSilently ∧
      worker_loop
          (ConnInput.mk (ReqParse.parsed (Request.mk "run_container" "c2" "ls"))
            (LaunchOutcome.launched 7) "T2" (fun _ => ProcObs.exitedObs) 1 :: []) =
        ConnOutcome.responded (RunResponse.mk "started" (some 7) (some "T2")) ::
          worker_loop [] := by
  refine ⟨?_, ?_, ?_⟩
  · exact (worker_conn_amended (Request.mk "run_container" "c2" "ls") 7 1 "T2"
      (fun _ => ProcObs.exitedObs) (LaunchOutcome.launched 7)
      (ConnInput.mk ReqParse.malformed (LaunchOutcome.launched 7) "T2"
        (fun _ => ProcObs.exitedObs) 1) []).1 rfl
  · exact (worker_conn_amended (Request.mk "status" "c2" "ls") 7 1 "T2"
      (fun _ => ProcObs.exitedObs) (LaunchOutcome.launched 7)
      (ConnInput.mk ReqParse.malformed (LaunchOutcome.launched 7) "T2"
        (fun _ => ProcObs.exitedObs) 1) []).2.1 (by decide)
  · exact (worker_conn_amended (Request.mk "run_container" "c2" "ls") 7 1 "T2"
      (fun _ => ProcObs.exitedObs) (LaunchOutcome.launched 7)
      (ConnInput.mk (ReqParse.parsed (Request.mk "run_container" "c2" "ls"))
        (LaunchOutcome.launched 7) "T2" (fun _ => ProcObs.exitedObs) 1) []).2.2
      (RunResponse.mk "started" (some 7) (some "T2")) rfl

/-- Helper: catchResult never breaks out of the loop, since both
handler outcomes are converted to a continue step. -/
theorem catchResult_ne_exit (cr : CmdResult) (outs : List String) :
    catchResult cr ≠ LoopStep.exitLoop outs := by
  cases cr <;> simp [catchResult]

/-- C9 counterexample: a malformed request (json.loads raises) is a
taxonomy error arising while handling a request, and it terminates the
worker process: the loop body has no try/except, so nothing is caught
and no error status is produced. -/
theorem worker_malformed_crashes_cex :
    worker_conn_step ReqParse.malformed (LaunchOutcome.launched 1) "T"
      (fun _ => ProcObs.exitedObs) 0 = ConnOutcome.crashed := rfl

/-- C9 amended: errors raised while handling a command in the master's
interactive loop are caught and converted into a user-visible Error
message, and the loop only exits on an explicit exit or quit command,
never because of an error; the worker's request loop, by contrast,
catches nothing, so a malformed request or a launch failure terminates
the worker process. -/
theorem error_boundaries_amended (hList hStop : List String → CmdResult)
    (hRunExn : Option String) (args : List String) (e : String) :
    (∀ outs, master_dispatch hList hStop hRunExn args = LoopStep.exitLoop outs →
      ∃ c, args.head? = some c ∧ (strLower c = "exit" ∨ strLower c = "quit")) ∧
      (∀ rest, args = "run" :: rest → hRunExn = some e →
        master_dispatch hList hStop hRunExn args =
          LoopStep.continueLoop [("Error: " ++ e)]) ∧
      worker_conn_step ReqParse.malformed (LaunchOutcome.launched 1) "T"
        (fun _ => ProcObs.exitedObs) 0 = ConnOutcome.crashed ∧
      worker_conn_step (ReqParse.parsed (Request.mk "run_container" "c" "x"))
        LaunchOutcome.launchRaise "T" (fun _ => ProcObs.exitedObs) 0 =
        ConnOutcome.crashed := by
  refine ⟨?_, ?_, rfl, by simp [worker_conn_step, handle_run]⟩
  · intro outs h
    cases args with
    | nil => simp [master_dispatch] at h
    | cons c rest =>
      refine ⟨c, rfl, ?_⟩
      by_cases h1 : strLower c = "exit" ∨ strLower c = "quit"
      · exact h1
      · exfalso
        simp only [master_dispatch, if_neg h1] at h
        split_ifs at h <;>
          first
            | exact LoopStep.noConfusion h
            | exact catchResult_ne_exit _ _ h
  · intro rest hargs hexn
    subst hargs
    subst hexn
    have hrl : strLower "run" = "run" := by decide
    simp [master_dispatch, catchResult, hrl]

/-- Witness for error_boundaries_amended, applying it where the run
handler raises "boom" on the command line run nginx. -/
theorem error_boundaries_amended_witness :
    master_dispatch (fun _ => CmdResult.output []) (fun _ => CmdResult.output [])
        (some "boom") ["run", "nginx"] =
      LoopStep.continueLoop [("Error: " ++ "boom")] :=
  (error_boundaries_amended (fun _ => CmdResult.output [])
    (fun _ => CmdResult.output []) (some "boom") ["run", "nginx"] "boom").2.1
    ["nginx"] rfl rfl

/-- Helper: a schedule call leaves the worker list unchanged and
advances the cursor by one modulo the list length, whatever the
outcome of the protocol call. -/
theorem schedule_sched (st : MasterState) (c : String) (o : RunOutcome) :
    (schedule st c o).2.sched =
      Scheduler.mk st.sched.workers
        ((st.sched.cursor + 1) % st.sched.workers.length) := by
  cases o <;> rfl

/-- Helper: the record a schedule call creates is assigned the worker
at the cursor position, whatever the outcome of the protocol call. -/
theorem schedule_assigned (st : MasterState) (c : String) (o : RunOutcome) :
    (schedule st c o).1.assignedWorker =
      st.sched.workers.getD (st.sched.cursor % st.sched.workers.length)
        (WorkerAddr.mk "" 0) := by
  cases o <;> rfl

/-- Helper: the worker assigned to the k-th of a sequence of schedule
calls, starting from an arbitrary cursor, is the one at position
cursor + k modulo the worker-list length, for any outcomes. -/
theorem runSchedules_getD (calls : List (String × RunOutcome)) :
    ∀ (st : MasterState) (k : Nat), k < calls.length →
      (runSchedules st calls).getD k (WorkerAddr.mk "" 0) =
        st.sched.workers.getD
          ((st.sched.cursor + k) % st.sched.workers.length)
          (WorkerAddr.mk "" 0) := by
  induction calls with
  | nil =>
    intro st k hk
    simp at hk
  | cons c rest ih =>
    intro st k hk
    cases k with
    | zero =>
      simp [runSchedules, schedule_assigned]
    | succ k =>
      have hrec := ih (schedule st c.1 c.2).2 k (by simpa using hk)
      rw [schedule_sched st c.1 c.2] at hrec
      simp only [runSchedules, List.getD_cons_succ]
      rw [hrec]
      have harith :
          ((st.sched.cursor + 1) % st.sched.workers.length + k) %
              st.sched.workers.length =
            (st.sched.cursor + (k + 1)) % st.sched.workers.length := by
        rw [Nat.mod_add_mod]
        congr 1
        omega
      rw [harith]

/-- C4: for every sequence of schedule calls against a fixed nonempty
worker list, starting from the startup cursor zero, the k-th call
(1-indexed) is assigned the worker at position (k-1) mod N, whatever
the success or failure outcomes of the calls. The scheduler is
modelled from the spec, since no scheduler exists in src/. -/
theorem round_robin_assignment (st : MasterState)
    (calls : List (String × RunOutcome)) (k : Nat)
    (hc : st.sched.cursor = 0) (h1 : 1 ≤ k) (hk : k ≤ calls.length) :
    (runSchedules st calls).getD (k - 1) (WorkerAddr.mk "" 0) =
      st.sched.workers.getD ((k - 1) % st.sched.workers.length)
        (WorkerAddr.mk "" 0) := by
  have h := runSchedules_getD calls st (k - 1) (by omega)
  rw [h, hc, Nat.zero_add]

/-- Witness for round_robin_assignment on the spec's own scenario:
worker list [(A,5001),(B,5002)], three run commands with mixed
outcomes; the third call is assigned worker A again. -/
theorem round_robin_assignment_witness :
    (runSchedules
        (MasterState.mk
          (Scheduler.mk [WorkerAddr.mk "A" 5001, WorkerAddr.mk "B" 5002] 0)
          [] 0 0)
        [("cmd1", RunOutcome.started 10 "t1"),
         ("cmd2", RunOutcome.failed),
         ("cmd3", RunOutcome.started 11 "t3")]).getD (3 - 1)
        (WorkerAddr.mk "" 0) =
      [WorkerAddr.mk "A" 5001, WorkerAddr.mk "B" 5002].getD
        ((3 - 1) % [WorkerAddr.mk "A" 5001, WorkerAddr.mk "B" 5002].length)
        (WorkerAddr.mk "" 0) :=
  round_robin_assignment
    (MasterState.mk
      (Scheduler.mk [WorkerAddr.mk "A" 5001, WorkerAddr.mk "B" 5002] 0)
      [] 0 0)
    [("cmd1", RunOutcome.started 10 "t1"),
     ("cmd2", RunOutcome.failed),
     ("cmd3", RunOutcome.started 11 "t3")] 3 rfl (by omega) (by simp)

/-- C5 counterexample: at the concrete operator command run nginx, the
master's run handler prints the two simulated lines and performs zero
schedule invocations, so the run command does not invoke schedule. -/
theorem run_cmd_no_schedule_cex :
    handle_run_command ["run", "nginx"] =
      (["Starting container with image: nginx",
        "Simulated: Container started successfully"], 0) := by
  simp [handle_run_command]

/-- C5 amended: the operator run command only prints a simulated-start
message and invokes the scheduler zero times on every input; the
schedule operation itself, modelled from the spec, produces exactly
one new registry record per call regardless of the outcome of the
worker call. -/
theorem run_simulated_schedule_one_record (args : List String)
    (st : MasterState) (c : String) (o : RunOutcome) :
    (handle_run_command args).2 = 0 ∧
      (schedule st c o).2.registry.length = st.registry.length + 1 ∧
      (∀ image_name rest, args = "run" :: image_name :: rest →
        (handle_run_command args).1 =
          [("Starting container with image: " ++ image_name),
            "Simulated: Container started successfully"]) := by
  refine ⟨?_, ?_, ?_⟩
  · unfold handle_run_command
    split
    · rfl
    · cases args with
      | nil => rfl
      | cons a tl =>
        cases tl with
        | nil => rfl
        | cons b tl2 => rfl
  · cases o <;>
      simp [schedule, updateByID, registryAppend, List.length_map]
  · intro image_name rest hargs
    subst hargs
    have h2 : ¬ (rest.length + 1 + 1 < 2) := by omega
    simp [handle_run_command, h2]

/-- Witness for run_simulated_schedule_one_record at the command line
run nginx with a one-worker scheduler and a started outcome. -/
theorem run_simulated_schedule_one_record_witness :
    (handle_run_command ["run", "nginx"]).2 = 0 ∧
      (schedule
          (MasterState.mk (Scheduler.mk [WorkerAddr.mk "A" 5001] 0) [] 0 0)
          "nginx" (RunOutcome.started 4242 "2025-01-01T00:00:00Z")).2.registry.length =
        (MasterState.mk (Scheduler.mk [WorkerAddr.mk "A" 5001] 0)
          [] 0 0).registry.length + 1 ∧
      (∀ image_name rest, ["run", "nginx"] = "run" :: image_name :: rest →
        (handle_run_command ["run", "nginx"]).1 =
          [("Starting container with image: " ++ image_name),
            "Simulated: Container started successfully"]) :=
  run_simulated_schedule_one_record ["run", "nginx"]
    (MasterState.mk (Scheduler.mk [WorkerAddr.mk "A" 5001] 0) [] 0 0)
    "nginx" (RunOutcome.started 4242 "2025-01-01T00:00:00Z")

/-- C6: the worker-side launch operation returns the started response
built from the new process id and the current timestamp only: the
response is the same whatever the launched process later does and
however long it runs, so handle_run never waits on process exit. -/
theorem launch_returns_without_waiting (cid cmd now : String)
    (pid fuel1 fuel2 : Nat) (obs1 obs2 : Nat → ProcObs) :
    (handle_run cid cmd (LaunchOutcome.launched pid) now obs1 fuel1).map
        Prod.fst = some (RunResponse.mk "started" (some pid) (some now)) ∧
      (handle_run cid cmd (LaunchOutcome.launched pid) now obs1 fuel1).map
          Prod.fst =
        (handle_run cid cmd (LaunchOutcome.launched pid) now obs2 fuel2).map
          Prod.fst := by
  exact ⟨rfl, rfl⟩

/-- C7: the master's outbound call consults exactly one network
attempt (no retry: two networks agreeing on the first attempt give the
same result), and a timeout or a refused connection yields the
corresponding Error message string rather than an uncaught
exception. -/
theorem send_failure_no_retry (ip cmd : String) (net1 net2 : Nat → NetResult)
    (h : net1 0 = net2 0) :
    send_command ip cmd net1 = send_command ip cmd net2 ∧
      (net1 0 = NetResult.timeoutErr →
        send_command ip cmd net1 = "Error: Connection timeout") ∧
      (net1 0 = NetResult.refusedErr →
        send_command ip cmd net1 =
          "Error: Connection refused - is the node running?") := by
  refine ⟨?_, ?_, ?_⟩
  · simp [send_command, h]
  · intro h0
    simp [send_command, h0]
  · intro h0
    simp [send_command, h0]

/-- Witness for send_failure_no_retry on a network whose every attempt
times out. -/
theorem send_failure_no_retry_witness :
    send_command "192.168.1.100" "list" (fun _ => NetResult.timeoutErr) =
        send_command "192.168.1.100" "list" (fun _ => NetResult.timeoutErr) ∧
      ((fun _ => NetResult.timeoutErr : Nat → NetResult) 0 =
          NetResult.timeoutErr →
        send_command "192.168.1.100" "list" (fun _ => NetResult.timeoutErr) =
          "Error: Connection timeout") ∧
      ((fun _ => NetResult.timeoutErr : Nat → NetResult) 0 =
          NetResult.refusedErr →
        send_command "192.168.1.100" "list" (fun _ => NetResult.timeoutErr) =
          "Error: Connection refused - is the node running?") :=
  send_failure_no_retry "192.168.1.100" "list"
    (fun _ => NetResult.timeoutErr) (fun _ => NetResult.timeoutErr) rfl

/-- Helper: every effect the monitor performs is a console line; it
never writes to the registry, the log, or the protocol connection. -/
theorem monitor_console_only (cid : String) (pid : Nat)
    (obs : Nat → ProcObs) :
    ∀ fuel t e, e ∈ monitor_process cid pid obs fuel t →
      ∃ s, e = Effect.console s := by
  intro fuel
  induction fuel with
  | zero =>
    intro t e h
    simp [monitor_process] at h
  | succ n ih =>
    intro t e h
    unfold monitor_process at h
    cases ho : obs t with
    | runningObs cpu mem =>
      rw [ho] at h
      rcases List.mem_cons.mp h with h1 | h2
      · exact ⟨_, h1⟩
      · exact ih (t + 1) e h2
    | exitedObs =>
      rw [ho] at h
      simp at h
    | vanishedObs =>
      rw [ho] at h
      simp at h
      exact ⟨_, h⟩

/-- Helper: once the process is no longer observed running from step T
on, the monitor performs at most one further effect per remaining step
up to T plus the final ended line, whatever the fuel. -/
theorem monitor_stops_le (cid : String) (pid : Nat) (obs : Nat → ProcObs)
    (T : Nat) (hT : ∀ u, T ≤ u → (obs u).isRunningObs = false) :
    ∀ fuel t, (monitor_process cid pid obs fuel t).length ≤ (T - t) + 1 := by
  intro fuel
  induction fuel with
  | zero =>
    intro t
    simp [monitor_process]
  | succ n ih =>
    intro t
    unfold monitor_process
    cases ho : obs t with
    | runningObs cpu mem =>
      have htT : t < T := by
        by_contra hge
        have := hT t (by omega)
        rw [ho] at this
        simp [ProcObs.isRunningObs] at this
      have := ih (t + 1)
      simp only [List.length_cons]
      omega
    | exitedObs => simp
    | vanishedObs => simp

/-- C8: the monitoring activity started after a successful launch
samples the process once per fixed-interval step while it is observed
running, printing each sample to the console; it stops within one step
of the process having exited (its output is bounded by the exit time);
and every effect it performs is a console line, never a registry write
or a protocol send. -/
theorem monitor_observational_stops (cid : String) (pid T fuel t : Nat)
    (obs : Nat → ProcObs)
    (hT : ∀ u, T ≤ u → (obs u).isRunningObs = false) :
    (monitor_process cid pid obs fuel t).length ≤ (T - t) + 1 ∧
      (∀ e ∈ monitor_process cid pid obs fuel t, ∃ s, e = Effect.console s) ∧
      (∀ cpu mem, obs t = ProcObs.runningObs cpu mem → 0 < fuel →
        ∃ rest, monitor_process cid pid obs fuel t =
          Effect.console (monitorLine cid pid cpu mem) :: rest) := by
  refine ⟨monitor_stops_le cid pid obs T hT fuel t,
    fun e he => monitor_console_only cid pid obs fuel t e he, ?_⟩
  intro cpu mem ho hf
  cases fuel with
  | zero => omega
  | succ n =>
    refine ⟨monitor_process cid pid obs n (t + 1), ?_⟩
    simp only [monitor_process, ho]

/-- Witness for monitor_observational_stops on a process that is never
observed running: the monitor performs at most one effect. -/
theorem monitor_observational_stops_witness :
    (monitor_process "c9" 1 (fun _ => ProcObs.exitedObs) 3 0).length ≤
        (0 - 0) + 1 ∧
      (∀ e ∈ monitor_process "c9" 1 (fun _ => ProcObs.exitedObs) 3 0,
        ∃ s, e = Effect.console s) ∧
      (∀ cpu mem,
        (fun _ => ProcObs.exitedObs : Nat → ProcObs) 0 =
            ProcObs.runningObs cpu mem → 0 < 3 →
        ∃ rest, monitor_process "c9" 1 (fun _ => ProcObs.exitedObs) 3 0 =
          Effect.console (monitorLine "c9" 1 cpu mem) :: rest) :=
  monitor_observational_stops "c9" 1 0 3 0 (fun _ => ProcObs.exitedObs)
    (fun _ _ => rfl)

/-- Helper: a string of the form "Error: " followed by anything begins
with the characters of "Error:". -/
theorem error_prefix_append (e : String) :
    ("Error:").data.isPrefixOf (("Error: " ++ e).data) = true := by
  rw [List.isPrefixOf_iff_prefix]
  have hdata : ("Error: " ++ e).data = ("Error: ").data ++ e.data :=
    String.data_append "Error: " e
  rw [hdata]
  have h1 : ("Error:").data <+: ("Error: ").data := by decide
  exact h1.trans (List.prefix_append _ _)

/-- C10: the master's send operation is total at its public interface:
for every address, command and network behaviour it returns a string;
on a successful round trip it returns the decoded worker response, and
on a timeout, a refused connection, or any other exception it returns
a message string beginning with "Error:". -/
theorem send_command_total_interface (ip cmd : String)
    (net : Nat → NetResult) :
    (match net 0 with
     | NetResult.success d => send_command ip cmd net = d
     | _ => ("Error:").data.isPrefixOf ((send_command ip cmd net).data) =
         true) := by
  cases h : net 0 with
  | success d => simp [send_command, h]
  | timeoutErr =>
    simp only [send_command, h]
    decide
  | refusedErr =>
    simp only [send_command, h]
    decide
  | otherErr e =>
    simp only [send_command, h]
    exact error_prefix_append e

end MiniDocker
